import Mathlib

/-!
Shallow embedding of the OAuth2 token lifecycle manager of the pyRevizto
library (src/pyrevizto/pyrevizto.py, class `pyRevizto` and exception
`TokenError`).

Modelling conventions:
* Time is discrete: `datetime.now()` is an explicit `now : Nat` parameter,
  `timedelta` validities are `Nat` durations, and ISO-8601 timestamp strings
  stored through `isoformat`/`fromisoformat` are modelled as `Nat` values.
* The process environment (`os.getenv`/`os.environ`) and the env file written
  by `dotenv.set_key` are two separate stores.  All keys the token manager
  touches are the four region-namespaced keys `{REGION}_ACCESS_TOKEN`,
  `{REGION}_ACCESS_TOKEN_TIMESTAMP`, `{REGION}_REFRESH_TOKEN`,
  `{REGION}_REFRESH_TOKEN_TIMESTAMP`; each store is modelled as a record
  (`RegionStore`) holding the slice of the store under the instance's region
  prefix.  `set_key` writes the file store only; `os.getenv` reads the
  environment store only; `load_dotenv` copies file entries into the
  environment without overriding keys already present (python-dotenv default
  `override=False`).  The repository pins `python-dotenv>=1.0.1`, whose
  `set_key` evaluates `value_to_set.replace(...)` before any file write and
  therefore raises `AttributeError` when handed a `None` value; `_save_tokens`
  can thus crash midway, leaving the writes already performed in place.
* The single HTTP POST a call may perform is modelled by an oracle
  `NetResult`: either the parsed `requests.Response` the token endpoint
  returns, or a `requests.exceptions.RequestException`.  TLS settings
  (`verification_bool`, `certificate`) and `env_path` parameterize the
  transport and the file location; they are carried as inert fields.
* Python exceptions become the `Err` inductive; a function that may raise
  returns a `Result`.  Python `None` returned from the fall-through of
  `_handle_token_response` (when `raise_for_status` does not raise) is the
  `RetVal.pyNone` value.
* Each executed `requests.post` is recorded in an outcome's `requests` list,
  carrying the grant-specific body parameters the source builds.
-/

set_option autoImplicit false

namespace PyReviztoSpec

/-- The slice, under one region's key prefix, of a string-keyed store
(the process environment or the env file): the four namespaced fields
`{REGION}_ACCESS_TOKEN`, `{REGION}_ACCESS_TOKEN_TIMESTAMP`,
`{REGION}_REFRESH_TOKEN`, `{REGION}_REFRESH_TOKEN_TIMESTAMP`.
A `none` field is an absent key. -/
structure RegionStore where
  access_token : Option String
  access_token_timestamp : Option Nat
  refresh_token : Option String
  refresh_token_timestamp : Option Nat
  deriving DecidableEq, Repr

/-- The store slice with no keys present. -/
def RegionStore.empty : RegionStore :=
  { access_token := none, access_token_timestamp := none,
    refresh_token := none, refresh_token_timestamp := none }

/-- The mutable world outside the `pyRevizto` object: the process
environment (read by `os.getenv`) and the env file (written by
`dotenv.set_key`, loaded by `dotenv.load_dotenv`). -/
structure World where
  env : RegionStore
  file : RegionStore
  deriving DecidableEq, Repr

/-- Parsed JSON body of a token-endpoint response, as accessed by
`_handle_token_response` via `tokens.get(...)`.  `extra` keeps any further
fields so that returning `tokens` returns the entire parsed body. -/
structure TokensJson where
  token_type : Option String
  access_token : Option String
  refresh_token : Option String
  extra : List (String × String)
  deriving DecidableEq, Repr

/-- The part of a `requests.Response` the handler inspects: the HTTP status
code and the parsed JSON body. -/
structure Response where
  status_code : Nat
  body : TokensJson
  deriving DecidableEq, Repr

/-- The Python exceptions the token manager raises.
`tokenError` is the library's own `TokenError(Exception)`;
`permissionErrorJson` is `PermissionError(tokens)` (200 with a non-Bearer
token type); `permissionErrorMsg` is `PermissionError(msg)` (401/403);
`valueError` is `ValueError(msg)` (400); `runtimeError` is
`RuntimeError(msg)` (500, or a wrapped `requests.exceptions.RequestException`);
`httpError` is the `requests.HTTPError` from `response.raise_for_status()`,
carrying the raw response's status; `attributeError` is the `AttributeError`
python-dotenv raises when `set_key` is handed a `None` value. -/
inductive Err where
  | tokenError (msg : String)
  | permissionErrorJson (tokens : TokensJson)
  | permissionErrorMsg (msg : String)
  | valueError (msg : String)
  | runtimeError (msg : String)
  | httpError (status_code : Nat)
  | attributeError (msg : String)
  deriving DecidableEq, Repr

/-- Whether an exception is of the `TokenError` class. -/
def Err.isTokenError : Err → Bool
  | .tokenError _ => true
  | _ => false

/-- Whether an exception is of the `PermissionError` class. -/
def Err.isPermissionError : Err → Bool
  | .permissionErrorJson _ => true
  | .permissionErrorMsg _ => true
  | _ => false

/-- A Python value returned by `get_tokens`/`get_refreshed_token`/
`_handle_token_response`:
* `cached a r` is the literal dict
  `\x7b"access_token": self.access_token, "refresh_token": self.refresh_token\x7d`
  built on the valid-cached-token path (each value may be Python `None`);
* `body tokens` is the entire parsed JSON body returned on 200/Bearer;
* `pyNone` is Python `None`, returned when the final
  `response.raise_for_status()` does not raise. -/
inductive RetVal where
  | cached (access_token refresh_token : Option String)
  | body (tokens : TokensJson)
  | pyNone
  deriving DecidableEq, Repr

/-- Normal return or raised exception. -/
inductive Result (α : Type) where
  | ok (val : α)
  | error (e : Err)
  deriving DecidableEq, Repr

/-- Whether a result is a raised exception of the `TokenError` class. -/
def Result.raisesTokenError {α : Type} : Result α → Bool
  | .error e => e.isTokenError
  | .ok _ => false

/-- The body parameters of one `requests.post` to the token endpoint,
as built by `_request_new_tokens` (grant_type `authorization_code`) and
`_request_refresh_token` (grant_type `refresh_token`). -/
inductive GrantRequest where
  | authorization_code (code redirect_uri client_id state scope : Option String)
  | refresh_grant (refresh_token redirect_uri client_id : Option String)
  deriving DecidableEq, Repr

/-- The network oracle for the single POST an operation may perform:
the response the endpoint returns, or a transport-level
`requests.exceptions.RequestException` with its message. -/
inductive NetResult where
  | response (r : Response)
  | requestException (msg : String)
  deriving DecidableEq, Repr

/-- The state of a `pyRevizto` instance: the constructor-supplied
configuration plus the mutable `access_token`/`refresh_token` fields. -/
structure pyRevizto where
  region : String
  verification_bool : Bool
  certificate : Option String
  save_token : Bool
  env_path : String
  token_validity : Nat
  refresh_token_validity : Nat
  client_id : Option String
  redirect_uri : Option String
  state : Option String
  scope : Option String
  token_url : String
  access_token : Option String
  refresh_token : Option String
  deriving DecidableEq, Repr

/-- Outcome of one operation: the returned value or raised exception, the
instance and world afterwards, and the POSTs performed (in order). -/
structure Outcome where
  result : Result RetVal
  inst : pyRevizto
  world : World
  requests : List GrantRequest
  deriving DecidableEq, Repr

/-- Default `token_validity`: `timedelta(hours=0.5)` in seconds. -/
def default_token_validity : Nat := 1800

/-- Default `refresh_token_validity`: `timedelta(days=30)` in seconds. -/
def default_refresh_token_validity : Nat := 2592000

/-- First-defined option: `b` fills in only where `a` is absent. -/
def firstSome {α : Type} (a b : Option α) : Option α :=
  match a with
  | some v => some v
  | none => b

/-- `dotenv.load_dotenv(env_path)` with its default `override=False`:
every key present in the file is copied into the process environment
unless the environment already defines it. -/
def load_dotenv (env file : RegionStore) : RegionStore :=
  { access_token := firstSome env.access_token file.access_token,
    access_token_timestamp :=
      firstSome env.access_token_timestamp file.access_token_timestamp,
    refresh_token := firstSome env.refresh_token file.refresh_token,
    refresh_token_timestamp :=
      firstSome env.refresh_token_timestamp file.refresh_token_timestamp }

/-- `_is_token_valid`: reads `{REGION}_ACCESS_TOKEN_TIMESTAMP` from the
process environment; if present, valid iff
`datetime.now() <= timestamp + self.token_validity`; absent means invalid. -/
def pyRevizto.is_token_valid (self : pyRevizto) (env : RegionStore)
    (now : Nat) : Bool :=
  match env.access_token_timestamp with
  | some ts => now ≤ ts + self.token_validity
  | none => false

/-- `_is_refresh_token_valid`: reads `{REGION}_REFRESH_TOKEN_TIMESTAMP` from
the process environment; if present, valid iff
`datetime.now() <= timestamp + self.refresh_token_validity`; absent means
invalid. -/
def pyRevizto.is_refresh_token_valid (self : pyRevizto) (env : RegionStore)
    (now : Nat) : Bool :=
  match env.refresh_token_timestamp with
  | some ts => now ≤ ts + self.refresh_token_validity
  | none => false

/-- The message of the `AttributeError` python-dotenv raises when
`set_key` is handed a `None` value (its `value_to_set.replace` call). -/
def attributeErrorMsg : String := "NoneType object has no attribute replace"

/-- `_save_tokens`: when `save_token` is set, four sequential `set_key`
calls write the region-namespaced entries to the env file, in source
order: access token, access timestamp (`datetime.now().isoformat()`),
refresh token, refresh timestamp; otherwise a no-op.  python-dotenv
(>= 1.0.1, the pinned lower bound) evaluates `value_to_set.replace(...)`
before any file write, so `set_key` with a `None` token raises
`AttributeError` leaving that key unwritten: a `None` `access_token`
crashes before any write, a `None` `refresh_token` crashes after the
access token and its timestamp were already written (a partial
two-field update).  The timestamp values are always strings and never
crash.  The process environment is never written.  Returns the raised
exception (if any) and the world after whatever writes happened. -/
def pyRevizto.save_tokens (self : pyRevizto) (w : World) (now : Nat) :
    Option Err × World :=
  if self.save_token then
    match self.access_token with
    | none => (some (.attributeError attributeErrorMsg), w)
    | some a =>
      let w1 : World := { w with file :=
        { w.file with access_token := some a,
                      access_token_timestamp := some now } }
      match self.refresh_token with
      | none => (some (.attributeError attributeErrorMsg), w1)
      | some r =>
        (none, { w1 with file :=
          { w1.file with refresh_token := some r,
                         refresh_token_timestamp := some now } })
  else
    (none, w)

/-- `_handle_token_response`: classifies the response by HTTP status.
200 with `token_type == "Bearer"`: assigns `self.access_token` and
`self.refresh_token` via `tokens.get`, then calls `_save_tokens` — whose
`AttributeError` (a `None` token under `save_token=True`) propagates after
the in-memory assignments and any partial file writes — and returns the
entire parsed body.  200 otherwise: raises `PermissionError(tokens)`.
400: `ValueError`.  401/403: `PermissionError`.  500: `RuntimeError`.
Any other status: `response.raise_for_status()`, which raises
`requests.HTTPError` iff `400 <= status < 600` and otherwise returns `None`,
which the handler then returns. -/
def pyRevizto.handle_token_response (self : pyRevizto) (w : World) (now : Nat)
    (response : Response) : Result RetVal × pyRevizto × World :=
  if response.status_code = 200 then
    let tokens := response.body
    if tokens.token_type = some "Bearer" then
      let self' := { self with access_token := tokens.access_token,
                               refresh_token := tokens.refresh_token }
      let s := self'.save_tokens w now
      (match s.1 with
       | some e => .error e
       | none => .ok (.body tokens), self', s.2)
    else
      (.error (.permissionErrorJson tokens), self, w)
  else if response.status_code = 400 then
    (.error (.valueError
      "Invalid request: Check the request parameters and try again."), self, w)
  else if response.status_code = 401 then
    (.error (.permissionErrorMsg
      "Unauthorized: Check your client ID and secret."), self, w)
  else if response.status_code = 403 then
    (.error (.permissionErrorMsg
      "Forbidden: You do not have permission to access this resource."),
     self, w)
  else if response.status_code = 500 then
    (.error (.runtimeError "Server error: Try again later."), self, w)
  else
    if 400 ≤ response.status_code ∧ response.status_code < 600 then
      (.error (.httpError response.status_code), self, w)
    else
      (.ok .pyNone, self, w)

/-- Model of `str(e)` for the `requests.HTTPError` raised by
`raise_for_status`: the real message is
"{code} Client Error: {reason} for url: {url}" for a 4xx code and
"{code} Server Error: {reason} for url: {url}" for a 5xx code; the reason
phrase and URL are transport details outside the model, so only the code
and its class are kept. -/
def httpErrorStr (status_code : Nat) : String :=
  if status_code < 500 then
    toString status_code ++ " Client Error"
  else
    toString status_code ++ " Server Error"

/-- The `except requests.exceptions.RequestException` in both request
wrappers encloses the `_handle_token_response` call, and `requests.HTTPError`
(raised by the fall-through `raise_for_status()`) is a `RequestException`
subclass, so it is caught and re-raised as `RuntimeError(wrap_msg + str(e))`.
None of the handler's other exceptions (`PermissionError`, `ValueError`,
`RuntimeError`, `AttributeError`, `TokenError`) derive from
`RequestException`; they propagate unwrapped. -/
def wrapHandlerResult (wrap_msg : String) : Result RetVal → Result RetVal
  | .error (.httpError s) =>
      .error (.runtimeError (wrap_msg ++ httpErrorStr s))
  | x => x

/-- `_request_new_tokens`: builds the `authorization_code` grant body, POSTs
once to the token endpoint, and hands the response to
`_handle_token_response` inside the same `try`; a transport exception, or
an `HTTPError` escaping the handler, is wrapped in `RuntimeError`. -/
def pyRevizto.request_new_tokens (self : pyRevizto) (w : World) (now : Nat)
    (access_code : Option String) (net : NetResult) : Outcome :=
  let req := GrantRequest.authorization_code access_code self.redirect_uri
    self.client_id self.state self.scope
  match net with
  | .response r =>
      let t := self.handle_token_response w now r
      { result := wrapHandlerResult "Failed to request new tokens: " t.1,
        inst := t.2.1, world := t.2.2, requests := [req] }
  | .requestException msg =>
      { result := .error (.runtimeError ("Failed to request new tokens: " ++ msg)),
        inst := self, world := w, requests := [req] }

/-- `_request_refresh_token`: builds the `refresh_token` grant body (the
possibly-absent `self.refresh_token` is sent as-is), POSTs once, and hands
the response to `_handle_token_response` inside the same `try`; a transport
exception, or an `HTTPError` escaping the handler, is wrapped in
`RuntimeError`. -/
def pyRevizto.request_refresh_token (self : pyRevizto) (w : World) (now : Nat)
    (net : NetResult) : Outcome :=
  let req := GrantRequest.refresh_grant self.refresh_token self.redirect_uri
    self.client_id
  match net with
  | .response r =>
      let t := self.handle_token_response w now r
      { result := wrapHandlerResult "Failed to refresh token: " t.1,
        inst := t.2.1, world := t.2.2, requests := [req] }
  | .requestException msg =>
      { result := .error (.runtimeError ("Failed to refresh token: " ++ msg)),
        inst := self, world := w, requests := [req] }

/-- `get_refreshed_token`: cached pair if the access token is valid; else a
refresh exchange if the refresh window is valid; else raises `TokenError`. -/
def pyRevizto.get_refreshed_token (self : pyRevizto) (w : World) (now : Nat)
    (net : NetResult) : Outcome :=
  if self.is_token_valid w.env now then
    { result := .ok (.cached self.access_token self.refresh_token),
      inst := self, world := w, requests := [] }
  else if self.is_refresh_token_valid w.env now then
    self.request_refresh_token w now net
  else
    { result := .error (.tokenError "Refresh token is invalid or expired"),
      inst := self, world := w, requests := [] }

/-- `get_tokens`: cached pair if the access token is valid; else
`get_refreshed_token` if the refresh window is valid; else a new-token
exchange with the supplied code. -/
def pyRevizto.get_tokens (self : pyRevizto) (w : World) (now : Nat)
    (access_code : Option String) (net : NetResult) : Outcome :=
  if self.is_token_valid w.env now then
    { result := .ok (.cached self.access_token self.refresh_token),
      inst := self, world := w, requests := [] }
  else if self.is_refresh_token_valid w.env now then
    self.get_refreshed_token w now net
  else
    self.request_new_tokens w now access_code net

/-- Outcome of `__init__`: the constructed instance, the world after
`_ensure_env_file_exists` and `load_dotenv`, and the POSTs performed
(none: the constructor makes no network call). -/
structure InitOutcome where
  inst : pyRevizto
  world : World
  requests : List GrantRequest
  deriving DecidableEq, Repr

/-- `__init__`: stores the configuration, computes `token_url`, starts with
both tokens `None`, ensures the env file exists, runs
`load_dotenv(env_path)` (populating the process environment from the file
without overriding), then `_update_tokens_from_file` reads
`{REGION}_ACCESS_TOKEN` and `{REGION}_REFRESH_TOKEN` from the environment
with `os.getenv`. -/
def pyRevizto.init (region : String)
    (client_id redirect_uri state scope : Option String)
    (verification_bool : Bool) (certificate : Option String)
    (save_token : Bool) (env_path : String)
    (token_validity refresh_token_validity : Nat) (w : World) : InitOutcome :=
  let env' := load_dotenv w.env w.file
  let inst : pyRevizto :=
    { region := region, verification_bool := verification_bool,
      certificate := certificate, save_token := save_token,
      env_path := env_path, token_validity := token_validity,
      refresh_token_validity := refresh_token_validity,
      client_id := client_id, redirect_uri := redirect_uri,
      state := state, scope := scope,
      token_url := "https://api." ++ region ++ ".revizto.com/v5/oauth2",
      access_token := env'.access_token,
      refresh_token := env'.refresh_token }
  { inst := inst, world := { env := env', file := w.file }, requests := [] }

/-! Concrete fixtures used to evaluate the model at specific inputs. -/

/-- A world with no keys in either store. -/
def w0 : World := { env := RegionStore.empty, file := RegionStore.empty }

/-- A sample instance: region "US", default validities, persistence off. -/
def sampleInst : pyRevizto :=
  { region := "US", verification_bool := true, certificate := none,
    save_token := false, env_path := ".env",
    token_validity := default_token_validity,
    refresh_token_validity := default_refresh_token_validity,
    client_id := some "cid", redirect_uri := some "https://cb",
    state := some "st", scope := some "openid",
    token_url := "https://api.US.revizto.com/v5/oauth2",
    access_token := none, refresh_token := none }

/-- The sample instance with persistence enabled. -/
def sampleInstSave : pyRevizto := { sampleInst with save_token := true }

/-- A 200 response body with `token_type` Bearer, both tokens, and an
extra field. -/
def bearerBody : TokensJson :=
  { token_type := some "Bearer", access_token := some "A1",
    refresh_token := some "R1", extra := [("expires_in", "3600")] }

/-- A 200/Bearer response. -/
def bearerResp : Response := { status_code := 200, body := bearerBody }

/-- An empty JSON body. -/
def emptyBody : TokensJson :=
  { token_type := none, access_token := none, refresh_token := none,
    extra := [] }

/-! Helper lemmas about the operations. -/

/-- `_save_tokens` never writes the process environment, on the full, the
partial and the crashing paths alike. -/
theorem save_tokens_env_frame (c : pyRevizto) (w : World) (now : Nat) :
    (c.save_tokens w now).2.env = w.env := by
  simp only [pyRevizto.save_tokens]
  split_ifs
  · cases c.access_token <;> cases c.refresh_token <;> rfl
  · rfl

/-- `_handle_token_response` never writes the process environment: the only
store writes are `set_key` calls on the env file inside `_save_tokens`. -/
theorem handle_env_frame (c : pyRevizto) (w : World) (now : Nat)
    (resp : Response) : (c.handle_token_response w now resp).2.2.env = w.env := by
  simp only [pyRevizto.handle_token_response]
  split_ifs <;>
    first
      | rfl
      | exact save_tokens_env_frame _ w now

/-- `_request_new_tokens` performs exactly one POST. -/
theorem request_new_tokens_one_post (c : pyRevizto) (w : World) (now : Nat)
    (access_code : Option String) (net : NetResult) :
    (c.request_new_tokens w now access_code net).requests.length = 1 := by
  cases net <;> rfl

/-- `_request_refresh_token` performs exactly one POST. -/
theorem request_refresh_token_one_post (c : pyRevizto) (w : World) (now : Nat)
    (net : NetResult) :
    (c.request_refresh_token w now net).requests.length = 1 := by
  cases net <;> rfl

/-- `get_refreshed_token` performs at most one POST. -/
theorem get_refreshed_token_at_most_one_post (c : pyRevizto) (w : World)
    (now : Nat) (net : NetResult) :
    (c.get_refreshed_token w now net).requests.length ≤ 1 := by
  unfold pyRevizto.get_refreshed_token
  split_ifs
  · exact Nat.zero_le 1
  · exact Nat.le_of_eq (request_refresh_token_one_post c w now net)
  · exact Nat.zero_le 1

/-- `get_tokens` performs at most one POST. -/
theorem get_tokens_at_most_one_post (c : pyRevizto) (w : World) (now : Nat)
    (access_code : Option String) (net : NetResult) :
    (c.get_tokens w now access_code net).requests.length ≤ 1 := by
  unfold pyRevizto.get_tokens
  split_ifs
  · exact Nat.zero_le 1
  · exact get_refreshed_token_at_most_one_post c w now net
  · exact Nat.le_of_eq (request_new_tokens_one_post c w now access_code net)

/-! Claim theorems. -/

/-- C3: `_is_token_valid` and `_is_refresh_token_valid` read the issuance
timestamps only from the process environment, and no successful exchange
ever writes the environment (`set_key` writes only the env file): for every
instance in a process whose environment lacks the two timestamp keys, both
validity checks return `false` on every call, even immediately after a
successful token exchange via `get_tokens`. -/
theorem C3_env_only_validity_never_true (c : pyRevizto) (w : World)
    (now now2 : Nat) (access_code : Option String) (net : NetResult)
    (ha : w.env.access_token_timestamp = none)
    (hr : w.env.refresh_token_timestamp = none) :
    c.is_token_valid w.env now = false ∧
    c.is_refresh_token_valid w.env now = false ∧
    (∀ resp : Response, (c.handle_token_response w now resp).2.2.env = w.env) ∧
    (c.get_tokens w now access_code net).world.env = w.env ∧
    (c.get_tokens w now access_code net).inst.is_token_valid
      (c.get_tokens w now access_code net).world.env now2 = false ∧
    (c.get_tokens w now access_code net).inst.is_refresh_token_valid
      (c.get_tokens w now access_code net).world.env now2 = false := by
  have htok : ∀ d : pyRevizto, ∀ m : Nat, d.is_token_valid w.env m = false := by
    intro d m
    simp [pyRevizto.is_token_valid, ha]
  have href : ∀ d : pyRevizto, ∀ m : Nat, d.is_refresh_token_valid w.env m = false := by
    intro d m
    simp [pyRevizto.is_refresh_token_valid, hr]
  have henv : (c.get_tokens w now access_code net).world.env = w.env := by
    simp only [pyRevizto.get_tokens, pyRevizto.get_refreshed_token,
      pyRevizto.request_new_tokens, pyRevizto.request_refresh_token]
    split_ifs <;> cases net <;>
      first
        | rfl
        | exact handle_env_frame c w now _
  refine ⟨htok c now, href c now, fun resp => handle_env_frame c w now resp,
    henv, ?_, ?_⟩
  · rw [henv]; exact htok _ now2
  · rw [henv]; exact href _ now2

/-- C3 witness: evaluated in a world with an empty environment, after a
successful 200/Bearer exchange through `get_tokens`. -/
theorem C3_env_only_validity_never_true_witness :
    sampleInstSave.is_token_valid w0.env 7 = false ∧
    sampleInstSave.is_refresh_token_valid w0.env 7 = false ∧
    (∀ resp : Response,
      (sampleInstSave.handle_token_response w0 7 resp).2.2.env = w0.env) ∧
    (sampleInstSave.get_tokens w0 7 (some "code123")
      (.response bearerResp)).world.env = w0.env ∧
    (sampleInstSave.get_tokens w0 7 (some "code123")
        (.response bearerResp)).inst.is_token_valid
      (sampleInstSave.get_tokens w0 7 (some "code123")
        (.response bearerResp)).world.env 8 = false ∧
    (sampleInstSave.get_tokens w0 7 (some "code123")
        (.response bearerResp)).inst.is_refresh_token_valid
      (sampleInstSave.get_tokens w0 7 (some "code123")
        (.response bearerResp)).world.env 8 = false :=
  C3_env_only_validity_never_true sampleInstSave w0 7 8 (some "code123")
    (.response bearerResp) rfl rfl

/-- C4: while the cached access token is within its validity window,
`get_tokens` returns the cached pair with zero network calls; and in every
case a single `get_tokens` call performs at most one POST. -/
theorem C4_cached_fast_path_and_single_roundtrip (c : pyRevizto) (w : World)
    (now ts : Nat) (access_code : Option String) (net : NetResult) :
    ((w.env.access_token_timestamp = some ts ∧ now < ts + c.token_validity) →
      c.get_tokens w now access_code net =
        { result := .ok (.cached c.access_token c.refresh_token),
          inst := c, world := w, requests := [] }) ∧
    (c.get_tokens w now access_code net).requests.length ≤ 1 := by
  constructor
  · rintro ⟨h1, h2⟩
    have hv : c.is_token_valid w.env now = true := by
      simp [pyRevizto.is_token_valid, h1]
      omega
    simp [pyRevizto.get_tokens, hv]
  · exact get_tokens_at_most_one_post c w now access_code net

/-- C4 witness: issuance at 100, call at 1899 (elapsed 1799 < 1800). -/
theorem C4_cached_fast_path_and_single_roundtrip_witness :
    (({ env := { RegionStore.empty with
          access_token_timestamp := some 100 }, file := RegionStore.empty } :
        World).env.access_token_timestamp = some 100 ∧
      (1899 : Nat) < 100 + sampleInst.token_validity) ∧
    ((sampleInst.get_tokens
        { env := { RegionStore.empty with access_token_timestamp := some 100 },
          file := RegionStore.empty } 1899 none (.requestException "net down") =
      { result := .ok (.cached sampleInst.access_token sampleInst.refresh_token),
        inst := sampleInst,
        world := { env := { RegionStore.empty with
          access_token_timestamp := some 100 }, file := RegionStore.empty },
        requests := [] }) ∧
      (sampleInst.get_tokens
        { env := { RegionStore.empty with access_token_timestamp := some 100 },
          file := RegionStore.empty } 1899 none
        (.requestException "net down")).requests.length ≤ 1) := by
  refine ⟨⟨rfl, by decide⟩, ?_, ?_⟩
  · exact (C4_cached_fast_path_and_single_roundtrip sampleInst _ 1899 100 none
      (.requestException "net down")).1 ⟨rfl, by decide⟩
  · exact (C4_cached_fast_path_and_single_roundtrip sampleInst _ 1899 100 none
      (.requestException "net down")).2

/-- C5: an HTTP 401 from the token endpoint during an exchange raises a
`PermissionError` and mutates nothing: the handler, the new-token exchange
and the refresh exchange all leave the instance and both stores exactly as
they were. -/
theorem C5_http401_permission_error_no_mutation (c : pyRevizto) (w : World)
    (now : Nat) (access_code : Option String) (resp : Response)
    (h : resp.status_code = 401) :
    ((c.handle_token_response w now resp).1 =
        .error (.permissionErrorMsg
          "Unauthorized: Check your client ID and secret.") ∧
      (c.handle_token_response w now resp).2.1 = c ∧
      (c.handle_token_response w now resp).2.2 = w) ∧
    ((c.request_new_tokens w now access_code (.response resp)).result =
        .error (.permissionErrorMsg
          "Unauthorized: Check your client ID and secret.") ∧
      (c.request_new_tokens w now access_code (.response resp)).inst = c ∧
      (c.request_new_tokens w now access_code (.response resp)).world = w) ∧
    ((c.request_refresh_token w now (.response resp)).result =
        .error (.permissionErrorMsg
          "Unauthorized: Check your client ID and secret.") ∧
      (c.request_refresh_token w now (.response resp)).inst = c ∧
      (c.request_refresh_token w now (.response resp)).world = w) := by
  have hh : c.handle_token_response w now resp =
      (.error (.permissionErrorMsg
        "Unauthorized: Check your client ID and secret."), c, w) := by
    simp [pyRevizto.handle_token_response, h]
  refine ⟨?_, ?_, ?_⟩ <;>
    simp [hh, pyRevizto.request_new_tokens, pyRevizto.request_refresh_token,
      wrapHandlerResult]

/-- C5 witness: a concrete 401 response against the sample instance. -/
theorem C5_http401_permission_error_no_mutation_witness :
    (({ status_code := 401, body := emptyBody } : Response).status_code = 401) ∧
    ((sampleInst.handle_token_response w0 3
        { status_code := 401, body := emptyBody }).1 =
      .error (.permissionErrorMsg
        "Unauthorized: Check your client ID and secret.") ∧
     (sampleInst.handle_token_response w0 3
        { status_code := 401, body := emptyBody }).2.1 = sampleInst ∧
     (sampleInst.handle_token_response w0 3
        { status_code := 401, body := emptyBody }).2.2 = w0) :=
  ⟨rfl,
    (C5_http401_permission_error_no_mutation sampleInst w0 3 none
      { status_code := 401, body := emptyBody } rfl).1⟩

/-- C9: calling `get_refreshed_token` twice in immediate succession while
the access token is within its validity window returns the same cached
pair both times with no state change between the calls. -/
theorem C9_get_refreshed_token_idempotent (c : pyRevizto) (w : World)
    (now : Nat) (net net2 : NetResult)
    (h : c.is_token_valid w.env now = true) :
    (c.get_refreshed_token w now net).result =
      .ok (.cached c.access_token c.refresh_token) ∧
    (c.get_refreshed_token w now net).inst = c ∧
    (c.get_refreshed_token w now net).world = w ∧
    (c.get_refreshed_token w now net).requests = [] ∧
    (c.get_refreshed_token w now net).inst.get_refreshed_token
        (c.get_refreshed_token w now net).world now net2 =
      c.get_refreshed_token w now net := by
  simp [pyRevizto.get_refreshed_token, h]

/-- C9 witness: a valid access timestamp, evaluated twice at time 50. -/
theorem C9_get_refreshed_token_idempotent_witness :
    sampleInst.is_token_valid
      ({ env := { RegionStore.empty with access_token_timestamp := some 40 },
         file := RegionStore.empty } : World).env 50 = true ∧
    ((sampleInst.get_refreshed_token
        { env := { RegionStore.empty with access_token_timestamp := some 40 },
          file := RegionStore.empty } 50 (.requestException "a")).result =
      .ok (.cached sampleInst.access_token sampleInst.refresh_token) ∧
     (sampleInst.get_refreshed_token
        { env := { RegionStore.empty with access_token_timestamp := some 40 },
          file := RegionStore.empty } 50
        (.requestException "a")).inst.get_refreshed_token
        (sampleInst.get_refreshed_token
          { env := { RegionStore.empty with access_token_timestamp := some 40 },
            file := RegionStore.empty } 50 (.requestException "a")).world 50
        (.requestException "b") =
      sampleInst.get_refreshed_token
        { env := { RegionStore.empty with access_token_timestamp := some 40 },
          file := RegionStore.empty } 50 (.requestException "a")) := by
  refine ⟨by decide, ?_, ?_⟩
  · exact (C9_get_refreshed_token_idempotent sampleInst _ 50
      (.requestException "a") (.requestException "b") (by decide)).1
  · exact (C9_get_refreshed_token_idempotent sampleInst _ 50
      (.requestException "a") (.requestException "b") (by decide)).2.2.2.2

/-- A 200/Bearer body that lacks the `access_token` key but carries an
extra field. -/
def noAccessBody : TokensJson :=
  { token_type := some "Bearer", access_token := none,
    refresh_token := some "R9", extra := [("expires_in", "3600")] }

/-- A 200/Bearer response whose body lacks the `access_token` key. -/
def noAccessResp : Response := { status_code := 200, body := noAccessBody }

/-- A world whose environment holds only a fresh refresh timestamp. -/
def refreshValidWorld : World :=
  { env := { RegionStore.empty with refresh_token_timestamp := some 0 },
    file := RegionStore.empty }

/-- C10 counterexample: with persistence enabled (`save_token=True`), a
200/Bearer body lacking the `access_token` key does not make the call
"still succeed": `_save_tokens` hands the `None` token to python-dotenv's
`set_key`, which raises `AttributeError`, and the error surfaces through
`get_refreshed_token`; the in-memory access token was already set to
`None` by `tokens.get` before the crash. -/
theorem C10_missing_key_crash_counterexample :
    sampleInstSave.save_token = true ∧
    (sampleInstSave.handle_token_response w0 11 noAccessResp).1 =
      .error (.attributeError attributeErrorMsg) ∧
    (sampleInstSave.get_refreshed_token refreshValidWorld 11
        (.response noAccessResp)).result =
      .error (.attributeError attributeErrorMsg) ∧
    (sampleInstSave.handle_token_response w0 11 noAccessResp).2.1.access_token =
      none := by
  refine ⟨rfl, rfl, rfl, rfl⟩

/-- C10 (amended): on every 200/Bearer response the in-memory tokens are
set via `tokens.get` before any persistence, so a missing key leaves the
corresponding in-memory token `None`.  When persistence is disabled the
call still succeeds and the entire parsed body (token_type and extra
fields included) is returned through both exchange wrappers.  When
persistence is enabled and a token key is missing, the persist step raises
`AttributeError` (python-dotenv `set_key` on `None`) after the in-memory
update, so the call fails instead of succeeding. -/
theorem C10_full_body_returned_and_get_semantics (c : pyRevizto) (w : World)
    (now : Nat) (access_code : Option String) (resp : Response)
    (hs : resp.status_code = 200)
    (hb : resp.body.token_type = some "Bearer") :
    (c.handle_token_response w now resp).2.1.access_token =
      resp.body.access_token ∧
    (c.handle_token_response w now resp).2.1.refresh_token =
      resp.body.refresh_token ∧
    (resp.body.access_token = none →
      (c.handle_token_response w now resp).2.1.access_token = none) ∧
    (resp.body.refresh_token = none →
      (c.handle_token_response w now resp).2.1.refresh_token = none) ∧
    (c.save_token = false →
      (c.handle_token_response w now resp).1 = .ok (.body resp.body) ∧
      (c.request_new_tokens w now access_code (.response resp)).result =
        .ok (.body resp.body) ∧
      (c.request_refresh_token w now (.response resp)).result =
        .ok (.body resp.body)) ∧
    (c.save_token = true → resp.body.access_token = none →
      (c.handle_token_response w now resp).1 =
        .error (.attributeError attributeErrorMsg)) ∧
    (c.save_token = true → resp.body.refresh_token = none →
      (c.handle_token_response w now resp).1 ≠ .ok (.body resp.body)) := by
  refine ⟨?_, ?_, fun hnone => ?_, fun hnone => ?_, fun hoff => ?_,
    fun hon hnone => ?_, fun hon hnone => ?_⟩
  · simp [pyRevizto.handle_token_response, hs, hb]
  · simp [pyRevizto.handle_token_response, hs, hb]
  · simp [pyRevizto.handle_token_response, hs, hb, hnone]
  · simp [pyRevizto.handle_token_response, hs, hb, hnone]
  · have hh : (c.handle_token_response w now resp).1 = .ok (.body resp.body) := by
      simp [pyRevizto.handle_token_response, hs, hb, pyRevizto.save_tokens, hoff]
    refine ⟨hh, ?_, ?_⟩
    · simp [pyRevizto.request_new_tokens, wrapHandlerResult, hh]
    · simp [pyRevizto.request_refresh_token, wrapHandlerResult, hh]
  · simp [pyRevizto.handle_token_response, hs, hb, pyRevizto.save_tokens,
      hon, hnone]
  · cases ha : resp.body.access_token <;>
      simp [pyRevizto.handle_token_response, hs, hb, pyRevizto.save_tokens,
        hon, hnone, ha]

/-- C10 witness: with persistence disabled, a Bearer body with no
`access_token` key and an extra field still succeeds, returns the whole
body, and leaves the in-memory access token `None`. -/
theorem C10_full_body_returned_and_get_semantics_witness :
    noAccessResp.status_code = 200 ∧
    noAccessBody.token_type = some "Bearer" ∧
    sampleInst.save_token = false ∧
    ((sampleInst.handle_token_response w0 11 noAccessResp).2.1.access_token =
      none ∧
     (sampleInst.handle_token_response w0 11 noAccessResp).1 =
      .ok (.body noAccessBody)) :=
  ⟨rfl, rfl, rfl,
    (C10_full_body_returned_and_get_semantics sampleInst w0 11 none
      noAccessResp rfl rfl).2.2.1 rfl,
    ((C10_full_body_returned_and_get_semantics sampleInst w0 11 none
      noAccessResp rfl rfl).2.2.2.2.1 rfl).1⟩

/-- A world in the REFRESH_EXPIRED region: the refresh timestamp was
issued at time 0 and both validity windows are past at the times used
below. -/
def refreshExpiredWorld : World :=
  { env := { access_token := none, access_token_timestamp := none,
             refresh_token := some "R0", refresh_token_timestamp := some 0 },
    file := RegionStore.empty }

/-- A 400 response with an empty body. -/
def resp400 : Response := { status_code := 400, body := emptyBody }

/-- C1 counterexample: in state REFRESH_EXPIRED (refresh issued at 0,
call at 2592001 ≥ refresh_ttl = 2592000) with no valid authorization code,
`get_tokens` performs a new-token exchange; when the endpoint rejects the
bad code with HTTP 400, the call raises `ValueError`, not a
`TokenError`-class error. -/
theorem C1_refresh_expired_counterexample :
    sampleInst.is_refresh_token_valid refreshExpiredWorld.env 2592001 = false ∧
    (sampleInst.get_tokens refreshExpiredWorld 2592001 none
        (.response resp400)).result =
      .error (.valueError
        "Invalid request: Check the request parameters and try again.") ∧
    (sampleInst.get_tokens refreshExpiredWorld 2592001 none
        (.response resp400)).result.raisesTokenError = false := by
  refine ⟨by decide, rfl, rfl⟩

/-- C1 (amended): when both the access token and the refresh window are
invalid (state REFRESH_EXPIRED), `get_tokens` does not raise `TokenError`:
it performs a new-token exchange with the supplied code and surfaces that
exchange's own failure; it is `get_refreshed_token` that raises
`TokenError` in this state. -/
theorem C1_refresh_expired_behaviour (c : pyRevizto) (w : World) (now : Nat)
    (access_code : Option String) (net : NetResult)
    (hacc : c.is_token_valid w.env now = false)
    (href : c.is_refresh_token_valid w.env now = false) :
    c.get_tokens w now access_code net =
      c.request_new_tokens w now access_code net ∧
    (c.get_refreshed_token w now net).result =
      .error (.tokenError "Refresh token is invalid or expired") := by
  constructor
  · simp [pyRevizto.get_tokens, hacc, href]
  · simp [pyRevizto.get_refreshed_token, hacc, href]

/-- C1 witness: the REFRESH_EXPIRED fixture at time 2592001. -/
theorem C1_refresh_expired_behaviour_witness :
    sampleInst.is_token_valid refreshExpiredWorld.env 2592001 = false ∧
    sampleInst.is_refresh_token_valid refreshExpiredWorld.env 2592001 = false ∧
    (sampleInst.get_tokens refreshExpiredWorld 2592001 none
        (.response resp400) =
      sampleInst.request_new_tokens refreshExpiredWorld 2592001 none
        (.response resp400) ∧
     (sampleInst.get_refreshed_token refreshExpiredWorld 2592001
        (.response resp400)).result =
      .error (.tokenError "Refresh token is invalid or expired")) :=
  ⟨rfl, by decide,
    C1_refresh_expired_behaviour sampleInst refreshExpiredWorld 2592001 none
      (.response resp400) rfl (by decide)⟩

/-- C2 counterexample: with persistence disabled (`save_token=False`,
the constructor default), a successful 200/Bearer exchange updates the
in-memory access token yet stamps no issuance timestamp anywhere — both
timestamp keys stay absent in the file and the environment — refuting
"both issuance timestamps are stamped to now on every success". -/
theorem C2_no_timestamp_without_persistence_counterexample :
    (sampleInst.handle_token_response w0 5 bearerResp).1 =
      .ok (.body bearerBody) ∧
    (sampleInst.handle_token_response w0 5 bearerResp).2.1.access_token =
      some "A1" ∧
    (sampleInst.handle_token_response w0 5 bearerResp).2.2.file.access_token_timestamp =
      none ∧
    (sampleInst.handle_token_response w0 5 bearerResp).2.2.file.refresh_token_timestamp =
      none ∧
    (sampleInst.handle_token_response w0 5 bearerResp).2.2.env.access_token_timestamp =
      none ∧
    (sampleInst.handle_token_response w0 5 bearerResp).2.2.env.refresh_token_timestamp =
      none := by
  refine ⟨rfl, rfl, rfl, rfl, rfl, rfl⟩

/-- C2 (amended): on every 200/Bearer success the in-memory
`access_token`/`refresh_token` are both updated from the body.  When
persistence is enabled and both tokens are present in the body, the env
file receives both tokens and both issuance timestamps stamped to now, all
four fields in one step, and the call returns the body.  When persistence
is disabled nothing is persisted and no timestamp is recorded anywhere.
When persistence is enabled and a token key is missing, python-dotenv's
`set_key(None)` raises `AttributeError`: before any write when the access
token is missing, and after a partial two-field write (access token and
its timestamp only) when only the refresh token is missing — so tokens and
timestamps are stamped together only on the all-present persisted path. -/
theorem C2_atomic_update_with_persistence (c : pyRevizto) (w : World)
    (now : Nat) (resp : Response) (hs : resp.status_code = 200)
    (hb : resp.body.token_type = some "Bearer") :
    (c.handle_token_response w now resp).2.1 =
      { c with access_token := resp.body.access_token,
               refresh_token := resp.body.refresh_token } ∧
    (∀ a r, c.save_token = true → resp.body.access_token = some a →
      resp.body.refresh_token = some r →
      (c.handle_token_response w now resp).1 = .ok (.body resp.body) ∧
      (c.handle_token_response w now resp).2.2 =
        { w with file :=
            { access_token := some a, access_token_timestamp := some now,
              refresh_token := some r,
              refresh_token_timestamp := some now } }) ∧
    (c.save_token = false →
      (c.handle_token_response w now resp).1 = .ok (.body resp.body) ∧
      (c.handle_token_response w now resp).2.2 = w) ∧
    (c.save_token = true → resp.body.access_token = none →
      (c.handle_token_response w now resp).1 =
        .error (.attributeError attributeErrorMsg) ∧
      (c.handle_token_response w now resp).2.2 = w) ∧
    (∀ a, c.save_token = true → resp.body.access_token = some a →
      resp.body.refresh_token = none →
      (c.handle_token_response w now resp).1 =
        .error (.attributeError attributeErrorMsg) ∧
      (c.handle_token_response w now resp).2.2 =
        { w with file :=
            { w.file with access_token := some a,
                          access_token_timestamp := some now } }) := by
  refine ⟨?_, fun a r hon ha hr => ?_, fun hoff => ?_, fun hon ha => ?_,
    fun a hon ha hr => ?_⟩
  · simp [pyRevizto.handle_token_response, hs, hb]
  · constructor <;>
      simp [pyRevizto.handle_token_response, hs, hb, pyRevizto.save_tokens,
        hon, ha, hr]
  · constructor <;>
      simp [pyRevizto.handle_token_response, hs, hb, pyRevizto.save_tokens,
        hoff]
  · constructor <;>
      simp [pyRevizto.handle_token_response, hs, hb, pyRevizto.save_tokens,
        hon, ha]
  · constructor <;>
      simp [pyRevizto.handle_token_response, hs, hb, pyRevizto.save_tokens,
        hon, ha, hr]

/-- C2 witness: persistence enabled and both tokens present, success at
time 5 writes all four fields together. -/
theorem C2_atomic_update_with_persistence_witness :
    bearerResp.status_code = 200 ∧
    bearerBody.token_type = some "Bearer" ∧
    sampleInstSave.save_token = true ∧
    bearerBody.access_token = some "A1" ∧
    bearerBody.refresh_token = some "R1" ∧
    ((sampleInstSave.handle_token_response w0 5 bearerResp).1 =
      .ok (.body bearerBody) ∧
     (sampleInstSave.handle_token_response w0 5 bearerResp).2.2 =
      { w0 with file :=
          { access_token := some "A1", access_token_timestamp := some 5,
            refresh_token := some "R1", refresh_token_timestamp := some 5 } }) :=
  ⟨rfl, rfl, rfl, rfl, rfl,
    (C2_atomic_update_with_persistence sampleInstSave w0 5 bearerResp rfl
      rfl).2.1 "A1" "R1" rfl rfl rfl⟩

/-- A 204 No Content response. -/
def resp204 : Response := { status_code := 204, body := emptyBody }

/-- C6 counterexample: on HTTP 204 the final branch calls
`response.raise_for_status()`, which does not raise for a status below
400, so the handler returns normally (Python `None`) on a non-200 status —
refuting "the handler never returns normally on a non-200 status". -/
theorem C6_handler_returns_on_204_counterexample :
    (sampleInst.handle_token_response w0 0 resp204).1 = .ok .pyNone ∧
    (sampleInst.handle_token_response w0 0 resp204).2.1 = sampleInst ∧
    (sampleInst.handle_token_response w0 0 resp204).2.2 = w0 := by
  refine ⟨rfl, rfl, rfl⟩

/-- C6 (amended): the handler classifies strictly by HTTP status — 200
with `token_type` "Bearer" succeeds with the body provided the subsequent
persist step cannot crash (persistence disabled, or both tokens present in
the body); with persistence enabled and a missing token key the Bearer
branch instead raises `AttributeError` from `set_key(None)`; 200 with any
other token type raises `PermissionError(tokens)`; 400 raises
`ValueError`; 401 and 403 raise `PermissionError`; 500 raises
`RuntimeError`; any other status in [400, 600) raises the generic
`HTTPError` carrying the status; but a non-200 status outside [400, 600)
makes `raise_for_status` a no-op and the handler returns `None`
normally. -/
theorem C6_status_classification (c : pyRevizto) (w : World) (now : Nat)
    (resp : Response) :
    (resp.status_code = 200 → resp.body.token_type = some "Bearer" →
      c.save_token = false →
      (c.handle_token_response w now resp).1 = .ok (.body resp.body)) ∧
    (resp.status_code = 200 → resp.body.token_type = some "Bearer" →
      ∀ a r, resp.body.access_token = some a →
      resp.body.refresh_token = some r →
      (c.handle_token_response w now resp).1 = .ok (.body resp.body)) ∧
    (resp.status_code = 200 → resp.body.token_type = some "Bearer" →
      c.save_token = true → resp.body.access_token = none →
      (c.handle_token_response w now resp).1 =
        .error (.attributeError attributeErrorMsg)) ∧
    (resp.status_code = 200 → resp.body.token_type ≠ some "Bearer" →
      (c.handle_token_response w now resp).1 =
        .error (.permissionErrorJson resp.body)) ∧
    (resp.status_code = 400 →
      (c.handle_token_response w now resp).1 =
        .error (.valueError
          "Invalid request: Check the request parameters and try again.")) ∧
    (resp.status_code = 401 →
      (c.handle_token_response w now resp).1 =
        .error (.permissionErrorMsg
          "Unauthorized: Check your client ID and secret.")) ∧
    (resp.status_code = 403 →
      (c.handle_token_response w now resp).1 =
        .error (.permissionErrorMsg
          "Forbidden: You do not have permission to access this resource.")) ∧
    (resp.status_code = 500 →
      (c.handle_token_response w now resp).1 =
        .error (.runtimeError "Server error: Try again later.")) ∧
    (resp.status_code ∉ ([200, 400, 401, 403, 500] : List Nat) →
      400 ≤ resp.status_code → resp.status_code < 600 →
      (c.handle_token_response w now resp).1 =
        .error (.httpError resp.status_code)) ∧
    (resp.status_code ≠ 200 →
      ¬(400 ≤ resp.status_code ∧ resp.status_code < 600) →
      (c.handle_token_response w now resp).1 = .ok .pyNone) := by
  refine ⟨?_, ?_, ?_, ?_, ?_, ?_, ?_, ?_, ?_, ?_⟩
  · intro hs hb hoff
    simp [pyRevizto.handle_token_response, hs, hb, pyRevizto.save_tokens, hoff]
  · intro hs hb a r ha hr
    cases hsv : c.save_token <;>
      simp [pyRevizto.handle_token_response, hs, hb, pyRevizto.save_tokens,
        hsv, ha, hr]
  · intro hs hb hon ha
    simp [pyRevizto.handle_token_response, hs, hb, pyRevizto.save_tokens,
      hon, ha]
  · intro hs hb
    simp [pyRevizto.handle_token_response, hs, hb]
  · intro hs
    simp [pyRevizto.handle_token_response, hs]
  · intro hs
    simp [pyRevizto.handle_token_response, hs]
  · intro hs
    simp [pyRevizto.handle_token_response, hs]
  · intro hs
    simp [pyRevizto.handle_token_response, hs]
  · intro hmem h4 h6
    simp only [List.mem_cons, List.not_mem_nil, or_false, not_or] at hmem
    obtain ⟨h200, h400, h401, h403, h500⟩ := hmem
    simp [pyRevizto.handle_token_response, h200, h400, h401, h403, h500, h4, h6]
  · intro h200 hout
    have h400 : resp.status_code ≠ 400 := by omega
    have h401 : resp.status_code ≠ 401 := by omega
    have h403 : resp.status_code ≠ 403 := by omega
    have h500 : resp.status_code ≠ 500 := by omega
    simp [pyRevizto.handle_token_response, h200, h400, h401, h403, h500, hout]

/-- C6 witness: the classification applied at concrete 200/Bearer (with
and without persistence, and with a missing token under persistence), 400,
418 and 204 responses. -/
theorem C6_status_classification_witness :
    (sampleInst.handle_token_response w0 0 bearerResp).1 =
      .ok (.body bearerBody) ∧
    (sampleInstSave.handle_token_response w0 0 bearerResp).1 =
      .ok (.body bearerBody) ∧
    (sampleInstSave.handle_token_response w0 0 noAccessResp).1 =
      .error (.attributeError attributeErrorMsg) ∧
    (sampleInst.handle_token_response w0 0 resp400).1 =
      .error (.valueError
        "Invalid request: Check the request parameters and try again.") ∧
    (sampleInst.handle_token_response w0 0
        { status_code := 418, body := emptyBody }).1 =
      .error (.httpError 418) ∧
    (sampleInst.handle_token_response w0 0 resp204).1 = .ok .pyNone :=
  ⟨(C6_status_classification sampleInst w0 0 bearerResp).1 rfl rfl rfl,
   (C6_status_classification sampleInstSave w0 0 bearerResp).2.1
     rfl rfl "A1" "R1" rfl rfl,
   (C6_status_classification sampleInstSave w0 0 noAccessResp).2.2.1
     rfl rfl rfl rfl,
   (C6_status_classification sampleInst w0 0 resp400).2.2.2.2.1 rfl,
   (C6_status_classification sampleInst w0 0
      { status_code := 418, body := emptyBody }).2.2.2.2.2.2.2.2.1
     (by decide) (by decide) (by decide),
   (C6_status_classification sampleInst w0 0 resp204).2.2.2.2.2.2.2.2.2
     (by decide) (by decide)⟩

/-- A world whose environment holds a fresh refresh timestamp but no
access timestamp and no refresh token value. -/
def refreshTsOnlyWorld : World :=
  { env := { access_token := none, access_token_timestamp := none,
             refresh_token := none, refresh_token_timestamp := some 0 },
    file := RegionStore.empty }

/-- C7 counterexample: `_is_refresh_token_valid` checks only the
`{REGION}_REFRESH_TOKEN_TIMESTAMP` environment key, never that
`self.refresh_token` is present: with `refresh_token = None` but a fresh
refresh timestamp, both `get_refreshed_token` and `get_tokens` perform a
refresh exchange whose grant body carries `refresh_token = None` — refuting
"only when the refresh_token is present (non-None)". -/
theorem C7_refresh_without_token_counterexample :
    sampleInst.refresh_token = none ∧
    sampleInst.is_refresh_token_valid refreshTsOnlyWorld.env 100 = true ∧
    (sampleInst.get_refreshed_token refreshTsOnlyWorld 100
        (.requestException "timeout")).requests =
      [GrantRequest.refresh_grant none (some "https://cb") (some "cid")] ∧
    (sampleInst.get_tokens refreshTsOnlyWorld 100 none
        (.requestException "timeout")).requests =
      [GrantRequest.refresh_grant none (some "https://cb") (some "cid")] := by
  refine ⟨rfl, by decide, ?_, ?_⟩ <;> rfl

/-- C7 (amended): a refresh exchange is performed by
`get_tokens`/`get_refreshed_token` only when the refresh-token timestamp is
present in the environment and its validity window is unexpired; the
presence of the `refresh_token` value itself is not checked.  When the
window check fails (and the access token is invalid too),
`get_refreshed_token` fails with `TokenError` (no further recovery path),
while `get_tokens` falls back to a new-token exchange. -/
theorem C7_refresh_exchange_guard (c : pyRevizto) (w : World) (now : Nat)
    (net : NetResult) (access_code : Option String) :
    ((c.get_refreshed_token w now net).requests ≠ [] →
      c.is_refresh_token_valid w.env now = true) ∧
    (∀ rt ru ci, GrantRequest.refresh_grant rt ru ci ∈
        (c.get_tokens w now access_code net).requests →
      c.is_refresh_token_valid w.env now = true) ∧
    (c.is_token_valid w.env now = false →
      c.is_refresh_token_valid w.env now = false →
      (c.get_refreshed_token w now net).result =
        .error (.tokenError "Refresh token is invalid or expired") ∧
      c.get_tokens w now access_code net =
        c.request_new_tokens w now access_code net) := by
  cases h1 : c.is_token_valid w.env now with
  | true =>
    refine ⟨?_, ?_, ?_⟩
    · intro hne
      simp [pyRevizto.get_refreshed_token, h1] at hne
    · intro rt ru ci hmem
      simp [pyRevizto.get_tokens, h1] at hmem
    · intro h1' _
      simp_all
  | false =>
    cases h2 : c.is_refresh_token_valid w.env now with
    | true =>
      exact ⟨fun _ => rfl, fun _ _ _ _ => rfl, fun _ h2' => by simp_all⟩
    | false =>
      refine ⟨?_, ?_, ?_⟩
      · intro hne
        simp [pyRevizto.get_refreshed_token, h1, h2] at hne
      · intro rt ru ci hmem
        cases net <;>
          simp [pyRevizto.get_tokens, pyRevizto.request_new_tokens, h1, h2]
            at hmem
      · intro _ _
        constructor
        · simp [pyRevizto.get_refreshed_token, h1, h2]
        · simp [pyRevizto.get_tokens, h1, h2]

/-- C7 witness: the guard evaluated where the refresh window is expired
(refresh issued at 0, call at 2592001). -/
theorem C7_refresh_exchange_guard_witness :
    ((sampleInst.get_refreshed_token refreshExpiredWorld 2592001
        (.response resp400)).requests ≠ [] →
      sampleInst.is_refresh_token_valid refreshExpiredWorld.env 2592001 = true) ∧
    (sampleInst.is_token_valid refreshExpiredWorld.env 2592001 = false ∧
     sampleInst.is_refresh_token_valid refreshExpiredWorld.env 2592001 = false ∧
     (sampleInst.get_refreshed_token refreshExpiredWorld 2592001
        (.response resp400)).result =
       .error (.tokenError "Refresh token is invalid or expired")) := by
  refine ⟨(C7_refresh_exchange_guard sampleInst refreshExpiredWorld 2592001
    (.response resp400) none).1, rfl, by decide, ?_⟩
  exact ((C7_refresh_exchange_guard sampleInst refreshExpiredWorld 2592001
    (.response resp400) none).2.2 rfl (by decide)).1

/-- C8: after a successful persisted exchange (a 200/Bearer response whose
body carries both tokens, so `_save_tokens` completes), constructing a new
`pyRevizto` in a fresh process (empty environment slice) against the same
store and region yields identical in-memory tokens with no network call;
and while the persisted record is still within the access validity window,
`get_tokens` on the new instance returns that cached pair with zero
POSTs. -/
theorem C8_persist_reconstruct_round_trip (c : pyRevizto) (w : World)
    (now now2 : Nat) (resp : Response) (net : NetResult)
    (access_code : Option String) (a b : String)
    (t : Result RetVal × pyRevizto × World) (r : InitOutcome)
    (hsave : c.save_token = true) (hs : resp.status_code = 200)
    (hb : resp.body.token_type = some "Bearer")
    (hat : resp.body.access_token = some a)
    (hrt : resp.body.refresh_token = some b)
    (hvalid : now2 ≤ now + c.token_validity)
    (ht : t = c.handle_token_response w now resp)
    (hr : r = pyRevizto.init c.region c.client_id c.redirect_uri c.state
      c.scope c.verification_bool c.certificate c.save_token c.env_path
      c.token_validity c.refresh_token_validity
      { env := RegionStore.empty, file := t.2.2.file }) :
    r.requests = [] ∧
    r.inst.access_token = t.2.1.access_token ∧
    r.inst.refresh_token = t.2.1.refresh_token ∧
    r.inst.get_tokens r.world now2 access_code net =
      { result := .ok (.cached t.2.1.access_token t.2.1.refresh_token),
        inst := r.inst, world := r.world, requests := [] } := by
  have hT : c.handle_token_response w now resp =
      (.ok (.body resp.body),
       { c with access_token := resp.body.access_token,
                refresh_token := resp.body.refresh_token },
       { w with file :=
           { access_token := resp.body.access_token,
             access_token_timestamp := some now,
             refresh_token := resp.body.refresh_token,
             refresh_token_timestamp := some now } }) := by
    simp [pyRevizto.handle_token_response, hs, hb, pyRevizto.save_tokens,
      hsave, hat, hrt]
  subst ht hr
  rw [hT]
  refine ⟨rfl, rfl, rfl, ?_⟩
  have hv : (pyRevizto.init c.region c.client_id c.redirect_uri c.state
      c.scope c.verification_bool c.certificate c.save_token c.env_path
      c.token_validity c.refresh_token_validity
      { env := RegionStore.empty, file :=
          { access_token := resp.body.access_token,
            access_token_timestamp := some now,
            refresh_token := resp.body.refresh_token,
            refresh_token_timestamp := some now } }).inst.is_token_valid
      (pyRevizto.init c.region c.client_id c.redirect_uri c.state
        c.scope c.verification_bool c.certificate c.save_token c.env_path
        c.token_validity c.refresh_token_validity
        { env := RegionStore.empty, file :=
            { access_token := resp.body.access_token,
              access_token_timestamp := some now,
              refresh_token := resp.body.refresh_token,
              refresh_token_timestamp := some now } }).world.env now2 = true := by
    simp [pyRevizto.init, load_dotenv, firstSome, pyRevizto.is_token_valid,
      RegionStore.empty, hvalid]
  simp only [pyRevizto.get_tokens, hv, if_true]
  simp [pyRevizto.init, load_dotenv, firstSome, RegionStore.empty]

/-- C8 witness: a persisted success at time 5, reconstructed and queried at
time 1805 (elapsed 1800 = access TTL, still valid). -/
theorem C8_persist_reconstruct_round_trip_witness :
    sampleInstSave.save_token = true ∧
    bearerResp.status_code = 200 ∧
    bearerBody.token_type = some "Bearer" ∧
    bearerBody.access_token = some "A1" ∧
    bearerBody.refresh_token = some "R1" ∧
    (1805 : Nat) ≤ 5 + sampleInstSave.token_validity ∧
    ((pyRevizto.init sampleInstSave.region sampleInstSave.client_id
        sampleInstSave.redirect_uri sampleInstSave.state sampleInstSave.scope
        sampleInstSave.verification_bool sampleInstSave.certificate
        sampleInstSave.save_token sampleInstSave.env_path
        sampleInstSave.token_validity sampleInstSave.refresh_token_validity
        { env := RegionStore.empty,
          file := (sampleInstSave.handle_token_response w0 5
            bearerResp).2.2.file }).requests = [] ∧
     (pyRevizto.init sampleInstSave.region sampleInstSave.client_id
        sampleInstSave.redirect_uri sampleInstSave.state sampleInstSave.scope
        sampleInstSave.verification_bool sampleInstSave.certificate
        sampleInstSave.save_token sampleInstSave.env_path
        sampleInstSave.token_validity sampleInstSave.refresh_token_validity
        { env := RegionStore.empty,
          file := (sampleInstSave.handle_token_response w0 5
            bearerResp).2.2.file }).inst.access_token =
      (sampleInstSave.handle_token_response w0 5 bearerResp).2.1.access_token ∧
     (pyRevizto.init sampleInstSave.region sampleInstSave.client_id
        sampleInstSave.redirect_uri sampleInstSave.state sampleInstSave.scope
        sampleInstSave.verification_bool sampleInstSave.certificate
        sampleInstSave.save_token sampleInstSave.env_path
        sampleInstSave.token_validity sampleInstSave.refresh_token_validity
        { env := RegionStore.empty,
          file := (sampleInstSave.handle_token_response w0 5
            bearerResp).2.2.file }).inst.refresh_token =
      (sampleInstSave.handle_token_response w0 5 bearerResp).2.1.refresh_token ∧
     (pyRevizto.init sampleInstSave.region sampleInstSave.client_id
        sampleInstSave.redirect_uri sampleInstSave.state sampleInstSave.scope
        sampleInstSave.verification_bool sampleInstSave.certificate
        sampleInstSave.save_token sampleInstSave.env_path
        sampleInstSave.token_validity sampleInstSave.refresh_token_validity
        { env := RegionStore.empty,
          file := (sampleInstSave.handle_token_response w0 5
            bearerResp).2.2.file }).inst.get_tokens
        (pyRevizto.init sampleInstSave.region sampleInstSave.client_id
          sampleInstSave.redirect_uri sampleInstSave.state sampleInstSave.scope
          sampleInstSave.verification_bool sampleInstSave.certificate
          sampleInstSave.save_token sampleInstSave.env_path
          sampleInstSave.token_validity sampleInstSave.refresh_token_validity
          { env := RegionStore.empty,
            file := (sampleInstSave.handle_token_response w0 5
              bearerResp).2.2.file }).world 1805 none
        (.requestException "offline") =
      { result := .ok (.cached
          (sampleInstSave.handle_token_response w0 5 bearerResp).2.1.access_token
          (sampleInstSave.handle_token_response w0 5 bearerResp).2.1.refresh_token),
        inst := (pyRevizto.init sampleInstSave.region sampleInstSave.client_id
          sampleInstSave.redirect_uri sampleInstSave.state sampleInstSave.scope
          sampleInstSave.verification_bool sampleInstSave.certificate
          sampleInstSave.save_token sampleInstSave.env_path
          sampleInstSave.token_validity sampleInstSave.refresh_token_validity
          { env := RegionStore.empty,
            file := (sampleInstSave.handle_token_response w0 5
              bearerResp).2.2.file }).inst,
        world := (pyRevizto.init sampleInstSave.region sampleInstSave.client_id
          sampleInstSave.redirect_uri sampleInstSave.state sampleInstSave.scope
          sampleInstSave.verification_bool sampleInstSave.certificate
          sampleInstSave.save_token sampleInstSave.env_path
          sampleInstSave.token_validity sampleInstSave.refresh_token_validity
          { env := RegionStore.empty,
            file := (sampleInstSave.handle_token_response w0 5
              bearerResp).2.2.file }).world,
        requests := [] }) :=
  ⟨rfl, rfl, rfl, rfl, rfl, by decide,
    C8_persist_reconstruct_round_trip sampleInstSave w0 5 1805 bearerResp
      (.requestException "offline") none "A1" "R1"
      (sampleInstSave.handle_token_response w0 5 bearerResp)
      (pyRevizto.init sampleInstSave.region sampleInstSave.client_id
        sampleInstSave.redirect_uri sampleInstSave.state sampleInstSave.scope
        sampleInstSave.verification_bool sampleInstSave.certificate
        sampleInstSave.save_token sampleInstSave.env_path
        sampleInstSave.token_validity sampleInstSave.refresh_token_validity
        { env := RegionStore.empty,
          file := (sampleInstSave.handle_token_response w0 5
            bearerResp).2.2.file })
      rfl rfl rfl rfl rfl (by decide) rfl rfl⟩

end PyReviztoSpec
